import Mathlib

/-
Shallow embedding of the core of the news-chatbot backend
(Suushmaaa/news-chatbot-backend) and verification of its specification.

Modules embedded:
  * DocumentProcessor.chunkText        (src/services/documentProcessor.js)
  * DocumentProcessor.processArticles  (counting / flush behaviour)
  * JinaEmbeddings                     (src/services/jinaEmbeddings.js)
  * GeminiService retry machinery      (geminiService.js)
  * RAGService.query                   (ragService.js)

JavaScript numbers are modelled as ℚ (for scores, delays, embedding
components) and as Int where string offsets may go negative; the
transcendental primitives Math.sin / Math.cos / Math.sqrt are abstracted
as an explicit record of pure functions, which is faithful because the
JavaScript originals are pure functions of their argument.
-/

namespace NewsChatbot

/-! ### JavaScript string primitives -/

/-- JS `String.prototype.trim`: strip leading and trailing whitespace. -/
def jsTrim (l : List Char) : List Char :=
  ((l.dropWhile Char.isWhitespace).reverse.dropWhile Char.isWhitespace).reverse

/-- JS `String.prototype.substring`: both indices are clamped to
`[0, length]` and swapped when out of order. -/
def jsSubstring (l : List Char) (a b : Int) : List Char :=
  let a' := (min (max a 0) (l.length : Int)).toNat
  let b' := (min (max b 0) (l.length : Int)).toNat
  (l.take (max a' b')).drop (min a' b')

/-- JS `String.prototype.lastIndexOf(c, pos)` for a single character:
the largest index `i ≤ pos` holding `c`, or `-1`; a negative `pos` is
treated as `0`. -/
def jsLastIndexOf (l : List Char) (c : Char) (pos : Int) : Int :=
  let eff : Int := max pos 0
  match ((List.range l.length).filter
      (fun (i : Nat) => decide ((i : Int) ≤ eff) && (l.get? i == some c))).getLast? with
  | some i => (i : Int)
  | none => -1

/-- JS `String.prototype.includes` on character lists. -/
def strIncludes (needle haystack : List Char) : Bool :=
  (List.range (haystack.length + 1)).any (fun i => needle.isPrefixOf (haystack.drop i))

/-- JS `String.prototype.toLowerCase` (restricted to `Char.toLower`). -/
def jsToLower (s : String) : String := String.mk (s.toList.map Char.toLower)

/-- Splitting on `/\s+/` as JS `split` does: separators are maximal
whitespace runs; a leading or trailing run contributes an empty word,
and the empty string yields `[[]]`.  The `Bool` argument records whether
the scanner is inside a whitespace run. -/
def splitWsAux : List Char → List Char → Bool → List (List Char)
  | [], cur, _ => [cur.reverse]
  | c :: cs, cur, skipping =>
    if c.isWhitespace then
      if skipping then splitWsAux cs cur true
      else cur.reverse :: splitWsAux cs [] true
    else splitWsAux cs (c :: cur) false

/-- JS `text.split(/\s+/)`. -/
def splitWsRuns (l : List Char) : List (List Char) := splitWsAux l [] false

/-! ### Chunker — `DocumentProcessor.chunkText`

The JS loop is

```
while (start < text.length) {
  let end = Math.min(start + maxLength, text.length);
  if (end < text.length) {
    ... snap end to just after the last sentence terminator ≤ end,
        provided that terminator lies more than 100 chars after start ...
  }
  const chunk = text.substring(start, end).trim();
  if (chunk.length > 50) chunks.push(chunk);
  start = end - overlap;
}
```

`start` may become negative (`end - overlap`), hence `Int`.  The loop is
modelled with explicit fuel: `chunkTextFuel` returns `some chunks` when
the loop guard fails within `fuel` iterations and `none` otherwise, and
`chunkEmitted` collects the chunks emitted during the first `fuel`
iterations whether or not the loop ever exits. -/

/-- The `end` offset computed by one iteration of `chunkText`. -/
def chunkEnd (text : List Char) (maxLength : Int) (start : Int) : Int :=
  let n : Int := text.length
  let e := min (start + maxLength) n
  if e < n then
    let lastPeriod := jsLastIndexOf text '.' e
    let lastExclamation := jsLastIndexOf text '!' e
    let lastQuestion := jsLastIndexOf text '?' e
    let lastSentenceEnd := max lastPeriod (max lastExclamation lastQuestion)
    if lastSentenceEnd > start + 100 then lastSentenceEnd + 1 else e
  else e

/-- The candidate chunk of one iteration: `text.substring(start, end).trim()`. -/
def chunkCandidate (text : List Char) (maxLength : Int) (start : Int) : List Char :=
  jsTrim (jsSubstring text start (chunkEnd text maxLength start))

/-- `chunkText`, fuelled: `some` of the emitted chunks if the loop
terminates within `fuel` iterations, else `none`. -/
def chunkTextFuel (text : List Char) (maxLength overlap : Int) :
    Nat → Int → Option (List (List Char))
  | 0, _ => none
  | fuel + 1, start =>
    if start < (text.length : Int) then
      match chunkTextFuel text maxLength overlap fuel (chunkEnd text maxLength start - overlap) with
      | none => none
      | some cs =>
        some (if 50 < (chunkCandidate text maxLength start).length then
                chunkCandidate text maxLength start :: cs
              else cs)
    else some []

/-- The chunks emitted during the first `fuel` iterations of `chunkText`. -/
def chunkEmitted (text : List Char) (maxLength overlap : Int) :
    Nat → Int → List (List Char)
  | 0, _ => []
  | fuel + 1, start =>
    if start < (text.length : Int) then
      (if 50 < (chunkCandidate text maxLength start).length then
        [chunkCandidate text maxLength start]
       else []) ++
      chunkEmitted text maxLength overlap fuel (chunkEnd text maxLength start - overlap)
    else []

/-- A 100-character text with no sentence terminators, used as a
concrete input for `chunkText` with the default arguments. -/
def a100 : List Char := List.replicate 100 'a'

lemma a100_len : (a100.length : Int) = 100 := by decide

lemma chunkEnd_a100_0 : chunkEnd a100 500 0 = 100 := by decide

lemma chunkEnd_a100_50 : chunkEnd a100 500 50 = 100 := by decide

/-- Once `start` reaches `50 = 100 - overlap` on the 100-character input,
every further iteration maps `start` back to `50`, so no amount of fuel
makes the loop exit. -/
lemma chunkTextFuel_a100_stuck :
    ∀ fuel, chunkTextFuel a100 500 50 fuel 50 = none := by
  intro fuel
  induction fuel with
  | zero => rfl
  | succ n ih =>
    rw [chunkTextFuel]
    simp only [a100_len, chunkEnd_a100_50]
    norm_num [ih]

/-- C1: claimed — for every text and every `overlap < maxLength` (defaults
500/50) `chunkText` terminates.  Refuted: on a 100-character input with the
default arguments, `start` reaches `50 = 100 - overlap`, every later
iteration recomputes `end = 100` and resets `start` to `50`, so the loop
guard `start < text.length` holds forever and no amount of fuel makes the
scan finish.  The termination condition `start ≥ len(text)` stated by the spec
is unreachable: the code is the slip. -/
theorem chunkText_default_nonterminating :
    ∀ fuel, chunkTextFuel a100 500 50 fuel 0 = none := by
  intro fuel
  cases fuel with
  | zero => rfl
  | succ n =>
    rw [chunkTextFuel]
    simp only [a100_len, chunkEnd_a100_0]
    norm_num [chunkTextFuel_a100_stuck n]

/-- A 51-character text whose single candidate chunk survives the
50-character filter. -/
def b51 : List Char := List.replicate 51 'b'

/-- C7: every chunk emitted by `chunkText` has (trimmed) length strictly
greater than 50, and at each iteration the candidate chunk
`text.substring(start, end).trim()` is emitted iff its length exceeds 50
(shorter tails are dropped). -/
theorem chunkText_min_length (text : List Char) (maxLength overlap : Int) :
    (∀ fuel start c, c ∈ chunkEmitted text maxLength overlap fuel start → 50 < c.length) ∧
    (∀ fuel start, start < (text.length : Int) →
      chunkEmitted text maxLength overlap (fuel + 1) start =
        (if 50 < (chunkCandidate text maxLength start).length then
          [chunkCandidate text maxLength start]
         else []) ++
        chunkEmitted text maxLength overlap fuel (chunkEnd text maxLength start - overlap)) := by
  constructor
  · intro fuel
    induction fuel with
    | zero => intro start c hc; simp [chunkEmitted] at hc
    | succ n ih =>
      intro start c hc
      rw [chunkEmitted] at hc
      by_cases h : start < (text.length : Int)
      · rw [if_pos h] at hc
        rcases List.mem_append.mp hc with h1 | h2
        · split_ifs at h1 with hlen
          · rw [List.mem_singleton.mp h1]; exact hlen
          · simp at h1
        · exact ih _ _ h2
      · rw [if_neg h] at hc; simp at hc
  · intro fuel start h
    rw [chunkEmitted, if_pos h]

/-- Witness for C7 at a concrete input. -/
theorem chunkText_min_length_witness :
    50 < (chunkCandidate b51 500 0).length ∧
    chunkEmitted b51 500 50 1 0 =
      (if 50 < (chunkCandidate b51 500 0).length then [chunkCandidate b51 500 0] else []) ++
      chunkEmitted b51 500 50 0 (chunkEnd b51 500 0 - 50) :=
  ⟨(chunkText_min_length b51 500 50).1 1 0 _ (by decide),
   (chunkText_min_length b51 500 50).2 0 0 (by decide)⟩

/-! ### GenerationClient — `GeminiService` retry machinery

`executeWithRetry(operation, attempt = 1)` retries a failing operation:
a failure is classified by `isRetryableError`; a fatal failure is
re-thrown, a retryable one is retried after `calculateDelay(attempt)`
until `attempt >= maxRetries`, at which point the fixed fallback
sentence is returned instead of raising.  The operation is modelled as a
function from the attempt number to an `Except` outcome, and
`Math.random() * 1000` jitter as a function `jit` of the attempt. -/

/-- Retry configuration of `GeminiService` (`this.maxRetries = 5`). -/
def maxRetries : Nat := 5

/-- Retry configuration of `GeminiService` (`this.baseDelay = 1000`). -/
def baseDelay : ℚ := 1000

/-- An error thrown by the generative-model call: `status` is its
HTTP-like status code (`none` for an absent/undefined status; JS also
treats a `0` status as falsy), `message` its message text. -/
structure GeminiError where
  status : Option Nat
  message : List Char
deriving DecidableEq

/-- JS truthiness of `error.status`: `undefined` and `0` are falsy. -/
def jsTruthyStatus : Option Nat → Bool
  | none => false
  | some s => s != 0

/-- `GeminiService.isRetryableError`: `if (!error.status) return false;`
then status in `[503, 502, 504, 429, 500]` or message containing
`overloaded` / `rate limit` / `network`. -/
def isRetryableError (e : GeminiError) : Bool :=
  if !(jsTruthyStatus e.status) then false
  else
    (match e.status with
      | some s => ([503, 502, 504, 429, 500] : List Nat).contains s
      | none => false)
    || strIncludes ("overloaded").toList e.message
    || strIncludes ("rate limit").toList e.message
    || strIncludes ("network").toList e.message

/-- `GeminiService.calculateDelay`: exponential backoff with jitter,
capped at 30000 ms. -/
def calculateDelay (jit : Nat → ℚ) (attempt : Nat) : ℚ :=
  min (baseDelay * (2 : ℚ) ^ ((attempt : Int) - 1) + jit attempt) 30000

/-- `GeminiService.getFallbackResponse()`. -/
def fallbackResponse : String :=
  "I apologize, but I\x27m experiencing high traffic right now. Please try asking your question again in a moment. The news articles are available, but I need a moment to process your request."

/-- Outcome of a full `executeWithRetry` run: the value returned (or
error re-thrown), the number of times the operation was invoked, and the
backoff sleeps performed, in order. -/
structure RetryRun where
  result : Except GeminiError String
  attempts : Nat
  sleeps : List ℚ

/-- `GeminiService.executeWithRetry(operation, attempt)`. -/
def executeWithRetry (op : Nat → Except GeminiError String) (jit : Nat → ℚ)
    (attempt : Nat) : RetryRun :=
  match op attempt with
  | .ok s => ⟨.ok s, 1, []⟩
  | .error e =>
    if h : maxRetries ≤ attempt ∨ isRetryableError e = false then
      if isRetryableError e then ⟨.ok fallbackResponse, 1, []⟩
      else ⟨.error e, 1, []⟩
    else
      let r := executeWithRetry op jit (attempt + 1)
      ⟨r.result, r.attempts + 1, calculateDelay jit attempt :: r.sleeps⟩
termination_by maxRetries - attempt
decreasing_by
  simp only [not_or, not_le] at h
  omega

lemma executeWithRetry_ok (op : Nat → Except GeminiError String) (jit : Nat → ℚ)
    (attempt : Nat) (s : String) (h : op attempt = .ok s) :
    executeWithRetry op jit attempt = ⟨.ok s, 1, []⟩ := by
  rw [executeWithRetry, h]

lemma executeWithRetry_fatal (op : Nat → Except GeminiError String) (jit : Nat → ℚ)
    (attempt : Nat) (e : GeminiError) (h : op attempt = .error e)
    (hr : isRetryableError e = false) :
    executeWithRetry op jit attempt = ⟨.error e, 1, []⟩ := by
  rw [executeWithRetry, h]
  dsimp only
  rw [dif_pos (Or.inr hr)]
  simp [hr]

lemma executeWithRetry_exhaust (op : Nat → Except GeminiError String) (jit : Nat → ℚ)
    (attempt : Nat) (e : GeminiError) (h : op attempt = .error e)
    (hr : isRetryableError e = true) (ha : maxRetries ≤ attempt) :
    executeWithRetry op jit attempt = ⟨.ok fallbackResponse, 1, []⟩ := by
  rw [executeWithRetry, h]
  dsimp only
  rw [dif_pos (Or.inl ha), if_pos hr]

lemma executeWithRetry_step (op : Nat → Except GeminiError String) (jit : Nat → ℚ)
    (attempt : Nat) (e : GeminiError) (h : op attempt = .error e)
    (hr : isRetryableError e = true) (ha : attempt < maxRetries) :
    executeWithRetry op jit attempt =
      ⟨(executeWithRetry op jit (attempt + 1)).result,
       (executeWithRetry op jit (attempt + 1)).attempts + 1,
       calculateDelay jit attempt :: (executeWithRetry op jit (attempt + 1)).sleeps⟩ := by
  rw [executeWithRetry, h]
  dsimp only
  rw [dif_neg (not_or.mpr ⟨not_le.mpr ha, by simp [hr]⟩)]

/-- C3: if every attempt fails with a retryable error, the client makes
exactly `maxRetries = 5` attempts, sleeps between consecutive attempts
exactly `calculateDelay(n) = min(1000·2^(n-1) + jitter, 30000)` for
`n = 1..4` (hence never more than 30000 ms), and on exhaustion returns
the fixed fallback sentence instead of raising. -/
theorem gemini_retry_exhaustion (op : Nat → Except GeminiError String) (jit : Nat → ℚ)
    (hop : ∀ n, ∃ e, op n = Except.error e ∧ isRetryableError e = true) :
    (executeWithRetry op jit 1).result = Except.ok fallbackResponse ∧
    (executeWithRetry op jit 1).attempts = maxRetries ∧
    (executeWithRetry op jit 1).sleeps =
      [calculateDelay jit 1, calculateDelay jit 2, calculateDelay jit 3, calculateDelay jit 4] ∧
    (∀ n, calculateDelay jit n =
        min (baseDelay * (2 : ℚ) ^ ((n : Int) - 1) + jit n) 30000 ∧
      calculateDelay jit n ≤ 30000) := by
  obtain ⟨e1, h1, r1⟩ := hop 1
  obtain ⟨e2, h2, r2⟩ := hop 2
  obtain ⟨e3, h3, r3⟩ := hop 3
  obtain ⟨e4, h4, r4⟩ := hop 4
  obtain ⟨e5, h5, r5⟩ := hop 5
  have s1 := executeWithRetry_step op jit 1 e1 h1 r1 (by norm_num [maxRetries])
  have s2 := executeWithRetry_step op jit 2 e2 h2 r2 (by norm_num [maxRetries])
  have s3 := executeWithRetry_step op jit 3 e3 h3 r3 (by norm_num [maxRetries])
  have s4 := executeWithRetry_step op jit 4 e4 h4 r4 (by norm_num [maxRetries])
  have s5 := executeWithRetry_exhaust op jit 5 e5 h5 r5 (by norm_num [maxRetries])
  rw [s5] at s4
  rw [s4] at s3
  rw [s3] at s2
  rw [s2] at s1
  refine ⟨by rw [s1], by rw [s1]; rfl, by rw [s1], fun n => ⟨rfl, min_le_right _ _⟩⟩

/-- A retryable error: HTTP 503, empty message. -/
def err503 : GeminiError := ⟨some 503, []⟩

/-- Witness for C3: the generation API fails with a 503 on every attempt. -/
theorem gemini_retry_exhaustion_witness :
    (executeWithRetry (fun _ => Except.error err503) (fun _ => 0) 1).result =
      Except.ok fallbackResponse ∧
    (executeWithRetry (fun _ => Except.error err503) (fun _ => 0) 1).attempts = maxRetries :=
  ⟨(gemini_retry_exhaustion (fun _ => Except.error err503) (fun _ => 0)
      (fun _ => ⟨err503, rfl, by decide⟩)).1,
   (gemini_retry_exhaustion (fun _ => Except.error err503) (fun _ => 0)
      (fun _ => ⟨err503, rfl, by decide⟩)).2.1⟩

/-- An error carrying a network signal in its message but no status
code, as thrown by a failed fetch. -/
def netErr : GeminiError := ⟨none, ("network error").toList⟩

/-- C6 counterexample: an error whose message carries the `network`
signal but whose `status` is absent is classified NOT retryable
(`isRetryableError` returns `false` for any falsy status regardless of
the message) and is propagated on the very first attempt instead of
being retried. -/
theorem gemini_statusless_network_error_fatal :
    isRetryableError netErr = false ∧
    strIncludes (("network").toList) netErr.message = true ∧
    executeWithRetry (fun _ => Except.error netErr) (fun _ => 0) 1 =
      ⟨Except.error netErr, 1, []⟩ :=
  ⟨by decide, by decide,
   executeWithRetry_fatal (fun _ => Except.error netErr) (fun _ => 0) 1 netErr rfl (by decide)⟩

/-- C6 (amended): a failure is classified retryable iff it carries a
truthy status code AND an overload / rate-limit / server-error / network
signal (status in `{503, 502, 504, 429, 500}` or message containing
`overloaded`, `rate limit` or `network`); a retryable failure is retried
while attempts remain, and every fatal failure is propagated immediately
without a fallback answer. -/
theorem gemini_retry_classification (e : GeminiError) :
    (isRetryableError e = true ↔
      (jsTruthyStatus e.status = true ∧
        ((∃ s, e.status = some s ∧ s ∈ ([503, 502, 504, 429, 500] : List Nat)) ∨
          strIncludes (("overloaded").toList) e.message = true ∨
          strIncludes (("rate limit").toList) e.message = true ∨
          strIncludes (("network").toList) e.message = true))) ∧
    (∀ op jit attempt, op attempt = Except.error e → isRetryableError e = false →
      executeWithRetry op jit attempt = ⟨Except.error e, 1, []⟩) ∧
    (∀ op jit attempt, op attempt = Except.error e → isRetryableError e = true →
      attempt < maxRetries →
      (executeWithRetry op jit attempt).attempts =
        (executeWithRetry op jit (attempt + 1)).attempts + 1 ∧
      (executeWithRetry op jit attempt).result =
        (executeWithRetry op jit (attempt + 1)).result) := by
  refine ⟨?_, ?_, ?_⟩
  · rcases e with ⟨st, msg⟩
    cases st with
    | none => simp [isRetryableError, jsTruthyStatus]
    | some s =>
      by_cases h0 : s = 0
      · subst h0; simp [isRetryableError, jsTruthyStatus]
      · simp [isRetryableError, jsTruthyStatus, h0]
        tauto
  · intro op jit attempt ho hr
    exact executeWithRetry_fatal op jit attempt e ho hr
  · intro op jit attempt ho hr ha
    rw [executeWithRetry_step op jit attempt e ho hr ha]
    exact ⟨rfl, rfl⟩

/-- A retryable rate-limit error: HTTP 429, empty message. -/
def rlErr : GeminiError := ⟨some 429, []⟩

/-- Witness for the amended C6 at a concrete retryable error. -/
theorem gemini_retry_classification_witness :
    (executeWithRetry (fun _ => Except.error rlErr) (fun _ => 0) 1).attempts =
      (executeWithRetry (fun _ => Except.error rlErr) (fun _ => 0) 2).attempts + 1 ∧
    isRetryableError rlErr = true :=
  ⟨((gemini_retry_classification rlErr).2.2 (fun _ => Except.error rlErr) (fun _ => 0) 1
      rfl (by decide) (by decide)).1,
   by decide⟩

/-! ### EmbeddingProvider — `JinaEmbeddings`

`Math.sin` / `Math.cos` / `Math.sqrt` are pure functions; they are
abstracted as an explicit record `MathPrims` so that the embedding
remains an executable function of the text. -/

/-- The transcendental primitives used by the fallback embedding. -/
structure MathPrims where
  sin : ℚ → ℚ
  cos : ℚ → ℚ
  sqrt : ℚ → ℚ

/-- `JinaEmbeddings.createSimpleEmbedding(text)`: a 768-dimension vector
whose `i`-th raw component is
`(wordFeature·0.01 + charFeature·0.001 + sin(i/10)·0.1) · cos(i·0.1) · sin(len·0.001)`,
L2-normalized with the norm-0 guard `val / (magnitude || 1)`.
`wordFeature` is the length of word `i mod wordCount` of the lowercased
text split on `/\s+/` (1 for an empty word), `charFeature` the character
code at `i mod charCount` (65 when absent or zero). -/
def createSimpleEmbedding (m : MathPrims) (text : String) : List ℚ :=
  let lower : List Char := text.toList.map Char.toLower
  let words : List (List Char) := splitWsRuns lower
  let chars : List Char := lower
  let raw : List ℚ := (List.range 768).map (fun i =>
    let wordFeature : ℚ :=
      match words.get? (i % words.length) with
      | some w => if w = [] then 1 else (w.length : ℚ)
      | none => 1
    let charFeature : ℚ :=
      if chars.length = 0 then 65
      else
        match chars.get? (i % chars.length) with
        | some c => if c.toNat = 0 then 65 else (c.toNat : ℚ)
        | none => 65
    let posFeature : ℚ := m.sin ((i : ℚ) / 10) * (1 / 10)
    (wordFeature * (1 / 100) + charFeature * (1 / 1000) + posFeature) *
      m.cos ((i : ℚ) * (1 / 10)) * m.sin ((text.length : ℚ) * (1 / 1000)))
  let magnitude : ℚ := m.sqrt (raw.foldl (fun sum v => sum + v * v) 0)
  raw.map (fun v => v / (if magnitude = 0 then 1 else magnitude))

/-- `JinaEmbeddings.createFallbackEmbeddings(texts)`. -/
def createFallbackEmbeddings (m : MathPrims) (texts : List String) : List (List ℚ) :=
  texts.map (createSimpleEmbedding m)

/-- An error raised on the remote embedding path (transport failure,
timeout, or a thrown non-2xx `Jina API error`). -/
structure JinaError where
  message : String

/-- The mutable fields of a `JinaEmbeddings` instance: the captured
`JINA_API_KEY` (`none` models a missing/falsy key) and the `useFallback`
flag (`undefined`, i.e. falsy, unless set). -/
structure JinaState where
  apiKey : Option String
  useFallback : Bool

/-- The `JinaEmbeddings` constructor: `useFallback` is set iff the API
key is absent. -/
def jinaInit (envKey : Option String) : JinaState := ⟨envKey, envKey.isNone⟩

/-- `JinaEmbeddings.createEmbeddings(texts)`.  The single remote call
(fetch + status check + parse, whose failure the `catch` absorbs) is
passed in as its `Except` outcome; the second component counts how many
times the remote API was invoked. -/
def createEmbeddings (m : MathPrims) (s : JinaState) (texts : List String)
    (remote : Except JinaError (List (List ℚ))) : List (List ℚ) × Nat :=
  if s.useFallback || s.apiKey.isNone then (createFallbackEmbeddings m texts, 0)
  else
    match remote with
    | .ok embs => (embs, 1)
    | .error _ => (createFallbackEmbeddings m texts, 1)

/-- `JinaEmbeddings.testConnection()`: probes the API with a test
embedding; on failure sets `useFallback` and returns `false`. -/
def testConnection (s : JinaState) (probe : Except JinaError (List ℚ)) :
    JinaState × Bool :=
  if s.useFallback || s.apiKey.isNone then (s, true)
  else
    match probe with
    | .ok _ => (s, true)
    | .error _ => ({ s with useFallback := true }, false)

/-- An operation performed on a `JinaEmbeddings` instance during its
lifetime, with the outcome of any remote call it makes. -/
inductive JinaOp where
  | testConn (probe : Except JinaError (List ℚ))
  | createEmb (texts : List String) (remote : Except JinaError (List (List ℚ)))

/-- State transition of a `JinaEmbeddings` instance: only
`testConnection` ever writes to the instance state. -/
def jinaStep (s : JinaState) : JinaOp → JinaState
  | .testConn p => (testConnection s p).1
  | .createEmb _ _ => s

/-- C4: a transport failure or non-success status of the remote
embedding call makes `createEmbeddings` return the deterministic
fallback embeddings for the entire batch (never propagating the error —
the function is total), and the remote API is consulted at most once per
call: there is no retry. -/
theorem jina_silent_degrade (m : MathPrims) (s : JinaState) (texts : List String)
    (remote : Except JinaError (List (List ℚ))) (e : JinaError)
    (h : remote = Except.error e) :
    (createEmbeddings m s texts remote).1 = createFallbackEmbeddings m texts ∧
    (createEmbeddings m s texts remote).1 = texts.map (createSimpleEmbedding m) ∧
    (∀ r, (createEmbeddings m s texts r).2 ≤ 1) := by
  subst h
  refine ⟨?_, ?_, ?_⟩
  · unfold createEmbeddings
    split_ifs with hf
    · rfl
    · rfl
  · unfold createEmbeddings
    split_ifs with hf
    · rfl
    · rfl
  · intro r
    unfold createEmbeddings
    split_ifs with hf
    · norm_num
    · cases r
      · exact le_refl 1
      · exact le_refl 1

/-- Zero-valued transcendental primitives, for concrete instantiation. -/
def m0 : MathPrims := ⟨fun _ => 0, fun _ => 0, fun _ => 0⟩

/-- Witness for C4: a configured instance whose remote call fails with
an HTTP 500. -/
theorem jina_silent_degrade_witness :
    (createEmbeddings m0 (jinaInit (some "key")) ["a"]
        (Except.error ⟨"Jina API error: 500"⟩)).1 =
      createFallbackEmbeddings m0 ["a"] :=
  (jina_silent_degrade m0 (jinaInit (some "key")) ["a"]
    (Except.error ⟨"Jina API error: 500"⟩) ⟨"Jina API error: 500"⟩ rfl).1

/-- C8: the fallback embedding is a deterministic function of the input
text alone (for the fixed pure math primitives): equal texts give
bit-identical vectors, of exactly 768 components. -/
theorem createSimpleEmbedding_deterministic (m : MathPrims) (t₁ t₂ : String)
    (h : t₁ = t₂) :
    createSimpleEmbedding m t₁ = createSimpleEmbedding m t₂ ∧
    (createSimpleEmbedding m t₁).length = 768 := by
  subst h
  refine ⟨rfl, ?_⟩
  simp [createSimpleEmbedding]

/-- Witness for C8 at a concrete text. -/
theorem createSimpleEmbedding_deterministic_witness :
    createSimpleEmbedding m0 "news" = createSimpleEmbedding m0 "news" ∧
    (createSimpleEmbedding m0 "news").length = 768 :=
  createSimpleEmbedding_deterministic m0 "news" "news" rfl

/-- C10: fallback mode is sticky: an instance constructed without an API
key starts in fallback; a failed `testConnection` on a configured
instance sets the flag; no operation ever clears it (so it persists over
any sequence of operations); and a fallback-mode `createEmbeddings` uses
the local fallback without attempting the remote API. -/
theorem jina_fallback_sticky :
    (∀ k : Option String, k = none → (jinaInit k).useFallback = true) ∧
    (∀ (s : JinaState) (probe : Except JinaError (List ℚ)) (e : JinaError),
      probe = Except.error e → s.apiKey.isSome = true → s.useFallback = false →
      (testConnection s probe).1.useFallback = true) ∧
    (∀ (s : JinaState) (op : JinaOp), s.useFallback = true →
      (jinaStep s op).useFallback = true) ∧
    (∀ (s : JinaState) (ops : List JinaOp), s.useFallback = true →
      (ops.foldl jinaStep s).useFallback = true) ∧
    (∀ (m : MathPrims) (s : JinaState) (texts : List String)
        (remote : Except JinaError (List (List ℚ))), s.useFallback = true →
      createEmbeddings m s texts remote = (createFallbackEmbeddings m texts, 0)) := by
  have hstep : ∀ (s : JinaState) (op : JinaOp), s.useFallback = true →
      (jinaStep s op).useFallback = true := by
    intro s op hf
    cases op with
    | testConn p => simp [jinaStep, testConnection, hf]
    | createEmb texts remote => exact hf
  refine ⟨?_, ?_, hstep, ?_, ?_⟩
  · intro k hk; subst hk; rfl
  · intro s probe e hp hs hf
    subst hp
    rcases s with ⟨key, fb⟩
    cases key with
    | none => simp at hs
    | some k =>
      simp only at hf
      simp [testConnection, hf]
  · intro s ops
    induction ops generalizing s with
    | nil => intro hf; exact hf
    | cons op rest ih => intro hf; exact ih _ (hstep s op hf)
  · intro m s texts remote hf
    unfold createEmbeddings
    simp [hf]

/-- Witness for C10 at concrete states and operation sequences. -/
theorem jina_fallback_sticky_witness :
    (jinaInit none).useFallback = true ∧
    (testConnection ⟨some "k", false⟩ (Except.error ⟨"timeout"⟩)).1.useFallback = true ∧
    (([JinaOp.testConn (Except.ok []),
       JinaOp.createEmb ["x"] (Except.ok [])].foldl jinaStep
        ⟨some "k", true⟩)).useFallback = true ∧
    createEmbeddings m0 ⟨none, true⟩ ["x"] (Except.ok []) =
      (createFallbackEmbeddings m0 ["x"], 0) :=
  ⟨jina_fallback_sticky.1 none rfl,
   jina_fallback_sticky.2.1 ⟨some "k", false⟩ (Except.error ⟨"timeout"⟩) ⟨"timeout"⟩
     rfl rfl rfl,
   jina_fallback_sticky.2.2.2.1 ⟨some "k", true⟩
     [JinaOp.testConn (Except.ok []), JinaOp.createEmb ["x"] (Except.ok [])] rfl,
   jina_fallback_sticky.2.2.2.2 m0 ⟨none, true⟩ ["x"] (Except.ok []) rfl⟩

/-! ### QueryPipeline — `RAGService.query`

`query(userQuery, topK)` retrieves similar chunks (embedding the query
and searching the index — both modelled as one `Except`-valued `search`
outcome), filters them by `score > minRelevanceScore`, answers with a
templated refusal when nothing passes the gate, otherwise generates an
answer; the surrounding `try/catch` converts any thrown error into a
degraded outcome. -/

/-- A retrieval result: similarity `score` plus the payload fields the
query path reads. -/
structure RetrievedDoc where
  score : ℚ
  title : String
  url : String
  content : String
  publishDate : String
deriving DecidableEq

/-- One entry of the `sources` array of a query response. -/
structure RAGSource where
  title : String
  url : String
  snippet : String
  score : ℚ
  publishDate : String
deriving DecidableEq

/-- The object returned by `RAGService.query`; optional fields are only
present on some branches. -/
structure QueryOutcome where
  answer : String
  sources : List RAGSource
  query : String
  retrievedDocs : Option Nat
  isNewsQuery : Bool
  error : Option String
  suggestion : Option String
deriving DecidableEq

/-- An error thrown inside the query pipeline (query embedding, index
search, or generation). -/
structure RAGError where
  message : String

/-- `this.minRelevanceScore = 0.3`. -/
def minRelevanceScore : ℚ := 3 / 10

/-- The relevance gate: `relevantDocs.filter(doc => doc.score > this.minRelevanceScore)`. -/
def ragAccepted (docs : List RetrievedDoc) : List RetrievedDoc :=
  docs.filter (fun d => minRelevanceScore < d.score)

/-- `RAGService.isGreeting(query)`. -/
def isGreeting (q : String) : Bool :=
  ["hi", "hello", "hey", "good morning", "good evening", "how are you"].any
    (fun g => strIncludes g.toList q.toList)

/-- `RAGService.isPersonalQuestion(query)`. -/
def isPersonalQuestion (q : String) : Bool :=
  ["who are you", "what are you", "your name", "about yourself", "tell me about you"].any
    (fun g => strIncludes g.toList q.toList)

/-- `RAGService.getNonNewsResponse(userQuery)`. -/
def getNonNewsResponse (userQuery : String) : QueryOutcome :=
  let lowerQuery := jsToLower userQuery
  let mid : String :=
    if isGreeting lowerQuery then
      "Hello! I can help you find information about recent news. Try asking me about topics like:\n\n"
    else if isPersonalQuestion lowerQuery then
      "I don\x27t have personal experiences, but I can help you with news information. Try asking about:\n\n"
    else
      "I couldn\x27t find relevant news articles for your query. Please ask me about current events like:\n\n"
  { answer := "I\x27m a news chatbot designed to answer questions about current news articles. "
      ++ mid
      ++ "• Technology and AI developments\n• Climate and environmental news\n• Business and economic updates\n• Scientific breakthroughs\n• Global events and politics",
    sources := [], query := userQuery, retrievedDocs := none, isNewsQuery := false,
    error := none,
    suggestion := some "Try asking: \x27What\x27s new in technology?\x27 or \x27Tell me about climate news\x27" }

/-- One `sources` entry built from an accepted result. -/
def mkSource (d : RetrievedDoc) : RAGSource :=
  ⟨d.title, d.url, d.content.take 150 ++ "...", d.score, d.publishDate⟩

/-- The degraded answer produced by the `catch` block of `query`. -/
def apologyAnswer : String :=
  "I encountered an error while processing your question. Please try again."

/-- The body of the `try` block of `RAGService.query`: retrieval, gate,
and generation, any of whose thrown errors escape as `Except.error`. -/
def ragPipeline (search : Except RAGError (List RetrievedDoc))
    (generate : List RetrievedDoc → Except RAGError String) (userQuery : String) :
    Except RAGError QueryOutcome :=
  match search with
  | .error e => .error e
  | .ok relevantDocs =>
    let high := ragAccepted relevantDocs
    if high.length = 0 then .ok (getNonNewsResponse userQuery)
    else
      match generate high with
      | .error e => .error e
      | .ok answer =>
        .ok { answer := answer, sources := high.map mkSource, query := userQuery,
              retrievedDocs := some high.length, isNewsQuery := true,
              error := none, suggestion := none }

/-- `RAGService.query`: the `try` body with its `catch` boundary. -/
def ragQuery (search : Except RAGError (List RetrievedDoc))
    (generate : List RetrievedDoc → Except RAGError String) (userQuery : String) :
    QueryOutcome :=
  match ragPipeline search generate userQuery with
  | .ok r => r
  | .error e =>
    { answer := apologyAnswer, sources := [], query := userQuery,
      retrievedDocs := none, isNewsQuery := false, error := some e.message,
      suggestion := none }

/-- C2: if any step of the query pipeline throws, `RAGService.query`
returns the degraded outcome — generic apology, empty sources,
`isNewsQuery = false` — and never propagates the exception. -/
theorem ragQuery_error_boundary (search : Except RAGError (List RetrievedDoc))
    (generate : List RetrievedDoc → Except RAGError String) (q : String) (e : RAGError)
    (h : ragPipeline search generate q = Except.error e) :
    (ragQuery search generate q).answer = apologyAnswer ∧
    (ragQuery search generate q).sources = [] ∧
    (ragQuery search generate q).isNewsQuery = false := by
  unfold ragQuery
  rw [h]
  exact ⟨rfl, rfl, rfl⟩

/-- Witness for C2: the retrieval step throws. -/
theorem ragQuery_error_boundary_witness :
    (ragQuery (Except.error ⟨"embedding failed"⟩) (fun _ => Except.ok "x") "cats").answer
      = apologyAnswer ∧
    (ragQuery (Except.error ⟨"embedding failed"⟩) (fun _ => Except.ok "x") "cats").sources
      = [] ∧
    (ragQuery (Except.error ⟨"embedding failed"⟩) (fun _ => Except.ok "x") "cats").isNewsQuery
      = false :=
  ragQuery_error_boundary (Except.error ⟨"embedding failed"⟩) (fun _ => Except.ok "x")
    "cats" ⟨"embedding failed"⟩ rfl

/-- C5: the gate accepts exactly the results with `score > 0.3` (a score
equal to the threshold is excluded), and the query is routed as
in-domain iff at least one result exceeds the threshold: with an empty
acceptance the templated non-news outcome (`isNewsQuery = false`) is
returned, with a non-empty acceptance and successful generation the
outcome has `isNewsQuery = true`. -/
theorem rag_gate_threshold (docs : List RetrievedDoc) (d : RetrievedDoc)
    (q : String) (generate : List RetrievedDoc → Except RAGError String) (ans : String) :
    (d ∈ ragAccepted docs ↔ d ∈ docs ∧ minRelevanceScore < d.score) ∧
    (minRelevanceScore = 3 / 10) ∧
    (d.score = 3 / 10 → d ∉ ragAccepted docs) ∧
    (ragAccepted docs ≠ [] ↔ ∃ x ∈ docs, minRelevanceScore < x.score) ∧
    (ragAccepted docs = [] →
      ragQuery (Except.ok docs) generate q = getNonNewsResponse q ∧
      (getNonNewsResponse q).isNewsQuery = false) ∧
    (ragAccepted docs ≠ [] → generate (ragAccepted docs) = Except.ok ans →
      (ragQuery (Except.ok docs) generate q).isNewsQuery = true) := by
  have hmem : ∀ x : RetrievedDoc,
      x ∈ ragAccepted docs ↔ x ∈ docs ∧ minRelevanceScore < x.score := by
    intro x
    simp [ragAccepted]
  refine ⟨hmem d, rfl, ?_, ?_, ?_, ?_⟩
  · intro hs hin
    have := ((hmem d).mp hin).2
    rw [hs] at this
    exact absurd this (by norm_num [minRelevanceScore])
  · constructor
    · intro hne
      obtain ⟨x, hx⟩ := List.exists_mem_of_ne_nil _ hne
      exact ⟨x, ((hmem x).mp hx).1, ((hmem x).mp hx).2⟩
    · rintro ⟨x, hx, hscore⟩
      exact List.ne_nil_of_mem ((hmem x).mpr ⟨hx, hscore⟩)
  · intro hempty
    refine ⟨?_, rfl⟩
    simp [ragQuery, ragPipeline, hempty]
  · intro hne hgen
    simp [ragQuery, ragPipeline, hgen, hne, List.length_eq_zero]

/-- A retrieval result strictly above the gate threshold. -/
def docAbove : RetrievedDoc := ⟨2 / 5, "T1", "u1", "c1", "d1"⟩

/-- A retrieval result exactly at the gate threshold. -/
def docAt : RetrievedDoc := ⟨3 / 10, "T2", "u2", "c2", "d2"⟩

/-- Witness for C5 at concrete scores 0.4 (included) and 0.3 (excluded). -/
theorem rag_gate_threshold_witness :
    docAbove ∈ ragAccepted [docAt, docAbove] ∧
    docAt ∉ ragAccepted [docAt, docAbove] ∧
    (ragQuery (Except.ok [docAt, docAbove]) (fun _ => Except.ok "ans") "q").isNewsQuery
      = true ∧
    (ragQuery (Except.ok ([] : List RetrievedDoc)) (fun _ => Except.ok "ans") "q").isNewsQuery
      = false := by
  have hmemAbove : docAbove ∈ ragAccepted [docAt, docAbove] :=
    (rag_gate_threshold [docAt, docAbove] docAbove "q" (fun _ => Except.ok "ans")
      "ans").1.mpr ⟨by simp, by norm_num [minRelevanceScore, docAbove]⟩
  refine ⟨hmemAbove, ?_, ?_, ?_⟩
  · exact (rag_gate_threshold [docAt, docAbove] docAt "q" (fun _ => Except.ok "ans")
      "ans").2.2.1 rfl
  · exact (rag_gate_threshold [docAt, docAbove] docAbove "q" (fun _ => Except.ok "ans")
      "ans").2.2.2.2.2 (List.ne_nil_of_mem hmemAbove) rfl
  · have h := (rag_gate_threshold ([] : List RetrievedDoc) docAbove "q"
      (fun _ => Except.ok "ans") "ans").2.2.2.2.1 rfl
    rw [h.1]
    exact h.2

/-! ### IngestionPipeline — `DocumentProcessor.processArticles`

The per-article chunk embedding outcomes are supplied as input (every
chunk is embedded by a separate call whose failure is caught and
skipped).  After each article, if `(i + 1) % 10 === 0` and the buffer is
non-empty, `processedDocs.splice(0)` moves the whole buffer into the
vector store; at the end a non-empty remaining buffer is stored without
being cleared, and the returned `totalChunks` reads
`processedDocs.length` from that buffer. -/

/-- Failure of a single chunk embedding call. -/
structure EmbedError where
  message : String

/-- Processing one article: successfully embedded chunks are appended to
the buffer; failed chunks are logged and skipped. -/
def ingestArticle (buf : List (List ℚ)) (chunks : List (Except EmbedError (List ℚ))) :
    List (List ℚ) :=
  buf ++ chunks.filterMap (fun c =>
    match c with
    | .ok emb => some emb
    | .error _ => none)

/-- The article loop of `processArticles`: arguments are the remaining
articles, the 0-based index of the next article, the pending buffer, and
the documents stored so far; result is (final buffer, stored documents). -/
def ingestLoop : List (List (Except EmbedError (List ℚ))) → Nat →
    List (List ℚ) → List (List ℚ) → List (List ℚ) × List (List ℚ)
  | [], _, buf, stored => (buf, stored)
  | a :: rest, i, buf, stored =>
    let buf' := ingestArticle buf a
    if (i + 1) % 10 = 0 ∧ 0 < buf'.length then
      ingestLoop rest (i + 1) [] (stored ++ buf')
    else
      ingestLoop rest (i + 1) buf' stored

/-- The value returned by `processArticles`, plus the documents that
reached the vector store. -/
structure IngestResult where
  totalArticles : Nat
  totalChunks : Nat
  stored : List (List ℚ)

/-- `DocumentProcessor.processArticles` on a batch of articles given by
their chunk embedding outcomes. -/
def processArticles (articles : List (List (Except EmbedError (List ℚ)))) :
    IngestResult :=
  let r := ingestLoop articles 0 [] []
  ⟨articles.length, r.1.length, if 0 < r.1.length then r.2 ++ r.1 else r.2⟩

/-- Ten articles, each contributing exactly one successfully embedded
chunk. -/
def tenArticles : List (List (Except EmbedError (List ℚ))) :=
  List.replicate 10 [Except.ok ([1] : List ℚ)]

/-- C9: claimed — the returned `totalChunks` counts all chunks embedded
across the run, including those flushed at intermediate flush points.
Refuted: with 10 articles of one embedded chunk each, the flush after
article 10 empties the buffer (`splice(0)`), and the returned
`totalChunks`, read from the emptied buffer, is 0 even though 10 chunks
were embedded and stored; `totalArticles` (documentCount) is correct. -/
theorem processArticles_totalChunks_undercount :
    (processArticles tenArticles).totalArticles = 10 ∧
    (processArticles tenArticles).totalChunks = 0 ∧
    (processArticles tenArticles).stored.length = 10 := by decide

end NewsChatbot
